import Mathlib

/-!
Verification of the Maison Protegee session-authenticated scraping client
(custom_components/maison_protegee/api.py).

The embedding models:
  * the client's mutable session state (`ClientState`);
  * the network as a scripted environment (`Env`): a list of login responses
    and a list of resource-fetch responses, consumed in order; an exhausted
    script behaves as a transport error, matching the exception paths;
  * each `async_*` method of `MaisonProtegeeAPI` as an explicit state-passing
    function that also emits a trace of externally visible actions
    (`Req.authCall` when the auth manager is invoked, `Req.loginPost` for the
    login POST, `Req.fetch` for each resource request);
  * the three BeautifulSoup-based extractors as functions over an explicit
    DOM tree (`Node`), the tree BeautifulSoup would produce from the markup;
    a response body is carried as `Html` (raw text plus its DOM) since the
    code inspects both the raw string (emptiness check) and the parsed soup.

Python-level primitives are modelled explicitly: `str.lower` as ASCII
lowering (all phrases matched by the source are already lowercase),
`str.replace`/`str.strip` over character lists, `float` and
`datetime.strptime` as `Option`-valued parsers, and dict update as an
insertion-ordered association list.  Time is a `Nat` count of seconds; the
5-minute retry delay of the source is 300.
-/

/-- Character-list test: is the first list a leading segment of the second. -/
def isPrefixL : List Char → List Char → Bool
  | [], _ => true
  | _ :: _, [] => false
  | a :: as, b :: bs => a == b && isPrefixL as bs

/-- Character-list substring test, models the Python `in` operator on str. -/
def containsL : List Char → List Char → Bool
  | [], needle => needle.isEmpty
  | hd :: tl, needle => isPrefixL needle (hd :: tl) || containsL tl needle

/-- Substring test on strings: `strContains hay needle` models `needle in hay`. -/
def strContains (hay needle : String) : Bool := containsL hay.data needle.data

/-- Models Python `str.lower()`.  ASCII-only lowering; every phrase the source
matches against is already lowercase, so this is faithful on those checks. -/
def strLower (s : String) : String := ⟨s.data.map Char.toLower⟩

/-- Models Python `str.strip()` / the emptiness test on stripped text. -/
def strTrim (s : String) : String :=
  ⟨((s.data.dropWhile Char.isWhitespace).reverse.dropWhile Char.isWhitespace).reverse⟩

/-- Fuelled worker for `strReplace`; the fuel starts at the input length, which
bounds the number of steps, so the `0` case is never reached on real input. -/
def replaceFuel (f r : List Char) : Nat → List Char → List Char
  | _, [] => []
  | 0, l => l
  | fuel + 1, x :: xs =>
    if !f.isEmpty && isPrefixL f (x :: xs) then
      r ++ replaceFuel f r fuel (List.drop f.length (x :: xs))
    else
      x :: replaceFuel f r fuel xs

/-- Models Python `str.replace`: left-to-right, non-overlapping occurrences. -/
def strReplace (s find repl : String) : String :=
  ⟨replaceFuel find.data repl.data s.data.length s.data⟩

/-- Splits a character list at every occurrence of `c` (separators dropped). -/
def splitCharL (c : Char) : List Char → List (List Char)
  | [] => [[]]
  | x :: xs =>
    match splitCharL c xs with
    | [] => [[]]
    | g :: gs => if x == c then [] :: g :: gs else (x :: g) :: gs

/-- String split on a single character, models Python `str.split(c)`. -/
def strSplitChar (s : String) (c : Char) : List String :=
  (splitCharL c s.data).map (fun l => ⟨l⟩)

/-- Numeric value of a digit string (the caller checks digit-ness first). -/
def digitsVal (s : String) : Nat :=
  s.data.foldl (fun n c => n * 10 + (c.toNat - 48)) 0

/-- True when every character of the string is an ASCII digit. -/
def allDigits (s : String) : Bool := s.data.all Char.isDigit

/-- Models Python `float()` on the decimal notations the portal emits:
optional sign, integer digits, optional fractional digits.  Returns `none`
exactly where `float()` raises `ValueError` on such inputs. -/
def pyFloat (s : String) : Option Rat :=
  let t := strTrim s
  let (neg, u) :=
    if t.startsWith "-" then (true, t.drop 1)
    else if t.startsWith "+" then (false, t.drop 1)
    else (false, t)
  match strSplitChar u '.' with
  | [a] =>
    if a ≠ "" && allDigits a then
      some (if neg then -(digitsVal a : Rat) else (digitsVal a : Rat))
    else none
  | [a, b] =>
    if (a ≠ "" || b ≠ "") && allDigits a && allDigits b then
      let v : Rat := (digitsVal a : Rat) + (digitsVal b : Rat) / ((10 : Rat) ^ b.length)
      some (if neg then -v else v)
    else none
  | _ => none

/-- Splits a character list at every whitespace character. -/
def splitWsCharL : List Char → List (List Char)
  | [] => [[]]
  | x :: xs =>
    match splitWsCharL xs with
    | [] => [[]]
    | g :: gs => if x.isWhitespace then [] :: g :: gs else (x :: g) :: gs

/-- Maximal whitespace-free runs of a string, in order: the tokens that the
`\s+` separators of a CPython strptime format regex delimit. -/
def wsTokens (s : String) : List String :=
  ((splitWsCharL s.data).filter (fun l => l ≠ [])).map (fun l => ⟨l⟩)

/-- Gregorian leap-year rule, as in Python `calendar.isleap`. -/
def isLeapYear (y : Nat) : Bool :=
  y % 4 == 0 && (y % 100 != 0 || y % 400 == 0)

/-- Day count of a month, as validated by the `datetime` constructor. -/
def daysInMonth (y m : Nat) : Nat :=
  if m = 2 then (if isLeapYear y then 29 else 28)
  else if m = 4 ∨ m = 6 ∨ m = 9 ∨ m = 11 then 30
  else 31

/-- Models `datetime.strptime(s, "%d/%m/%Y %H:%M")`: returns
`(day, month, year, hour, minute)` on success, `none` where `strptime`
raises `ValueError`.  As in CPython: the format whitespace matches a run of
any whitespace characters (and nothing allows whitespace at either end),
the field regexes bound day/month/hour/minute and require exactly four year
digits, the whole string must be consumed, and the `datetime` constructor
validates the day against the month length (leap years included) and
requires year at least 1. -/
def pyStrptimeDMYHM (s : String) : Option (Nat × Nat × Nat × Nat × Nat) :=
  if s.data.head?.any Char.isWhitespace || s.data.getLast?.any Char.isWhitespace then
    none
  else
    match wsTokens s with
    | [datePart, timePart] =>
      match strSplitChar datePart '/', strSplitChar timePart ':' with
      | [d, m, y], [h, mi] =>
        if allDigits d && allDigits m && allDigits y && allDigits h && allDigits mi
            && d.length ≥ 1 && d.length ≤ 2 && m.length ≥ 1 && m.length ≤ 2
            && y.length == 4 && h.length ≥ 1 && h.length ≤ 2
            && mi.length ≥ 1 && mi.length ≤ 2
            && digitsVal y ≥ 1
            && digitsVal m ≥ 1 && digitsVal m ≤ 12
            && digitsVal d ≥ 1 && digitsVal d ≤ daysInMonth (digitsVal y) (digitsVal m)
            && digitsVal h ≤ 23 && digitsVal mi ≤ 59 then
          some (digitsVal d, digitsVal m, digitsVal y, digitsVal h, digitsVal mi)
        else none
      | _, _ => none
    | _ => none

/-- Element tree: the DOM that BeautifulSoup produces from the fetched markup.
An element carries its tag, the list of its CSS classes (the multi-valued
`class` attribute), and its children in document order. -/
inductive Node where
  | text (s : String)
  | elem (tag : String) (classes : List String) (children : List Node)

/-- Children of a node (a text node has none). -/
def childrenOf : Node → List Node
  | .text _ => []
  | .elem _ _ ch => ch

/-- Classes of a node (a text node has none). -/
def classesOf : Node → List String
  | .text _ => []
  | .elem _ cs _ => cs

mutual
/-- First match of `soup.find(tag, class_=p)` inside a single node, the node
itself included, in document (pre)order. -/
def findNode (tag : String) (p : List String → Bool) : Node → Option Node
  | .text _ => none
  | .elem t cs ch =>
    if t == tag && p cs then some (.elem t cs ch) else findNodes tag p ch
/-- First match of `find` over a forest, in document order. -/
def findNodes (tag : String) (p : List String → Bool) : List Node → Option Node
  | [] => none
  | n :: ns =>
    match findNode tag p n with
    | some r => some r
    | none => findNodes tag p ns
end

mutual
/-- All matches of `soup.find_all(tag, class_=p)` inside a single node, the
node itself included, in document order (nested matches included). -/
def findAllNode (tag : String) (p : List String → Bool) : Node → List Node
  | .text _ => []
  | .elem t cs ch =>
    (if t == tag && p cs then [Node.elem t cs ch] else []) ++ findAllNodes tag p ch
/-- All matches of `find_all` over a forest, in document order. -/
def findAllNodes (tag : String) (p : List String → Bool) : List Node → List Node
  | [] => []
  | n :: ns => findAllNode tag p n ++ findAllNodes tag p ns
end

mutual
/-- Models `element.get_text(strip=True)`: concatenation of all descendant
text, each piece stripped. -/
def getTextStrip : Node → String
  | .text s => strTrim s
  | .elem _ _ ch => getTextStripList ch
/-- Concatenated stripped text of a forest. -/
def getTextStripList : List Node → String
  | [] => ""
  | n :: ns => getTextStrip n ++ getTextStripList ns
end

/-- Models `cell.find(tag)` + `.decompose()`: removes the first descendant
element with the given tag (pre-order) from a forest; the Bool reports
whether one was found. -/
def removeFirstTagL (tag : String) : List Node → List Node × Bool
  | [] => ([], false)
  | .text s :: ns =>
    let (ns2, f) := removeFirstTagL tag ns
    (.text s :: ns2, f)
  | .elem t cs ch :: ns =>
    if t == tag then (ns, true)
    else
      let (ch2, f) := removeFirstTagL tag ch
      if f then (.elem t cs ch2 :: ns, true)
      else
        let (ns2, f2) := removeFirstTagL tag ns
        (.elem t cs ch2 :: ns2, f2)

/-- BeautifulSoup single-class criterion: matches when the searched class is
one of the element's classes. -/
def hasClass (c : String) (cs : List String) : Bool := cs.contains c

/-- BeautifulSoup whole-attribute criterion, used for `class_="row status"`:
the search string contains a space, so it is compared against the complete
class attribute value. -/
def classAttrIs (s : String) (cs : List String) : Bool :=
  String.intercalate " " cs == s

/-- BeautifulSoup callable criterion `lambda x: x and "icon-control" in x`:
called on each class value, matches when any class contains the fragment. -/
def anyClassContains (frag : String) (cs : List String) : Bool :=
  cs.any (fun c => strContains c frag)

/-- Criterion that accepts any class list (a `find` with no class filter). -/
def anyClass (_ : List String) : Bool := true

/-- The `entities["alarm"]` record built by the status extractor. -/
structure AlarmEntity where
  name : String
  state : Bool
  status_text : String
deriving DecidableEq, Repr

/-- Result of `_parse_status_html`.  The source dict only ever writes the key
`"alarm"` into `entities`, so `entities` is modelled as the optional alarm
record; `sensors` is written once as the empty dict and never populated, and
is kept as an always-empty list so the emptiness test of `async_get_status`
reads as in the source. -/
structure StatusData where
  alarm_status : Option String
  entities_alarm : Option AlarmEntity
  sensors : List (String × AlarmEntity)
deriving DecidableEq, Repr

/-- One temperature reading, the dict value built by `_parse_temperatures_html`. -/
structure TempReading where
  name : String
  value : Rat
  unit : String
deriving DecidableEq, Repr

/-- One event record built by `_parse_events_html`.  The source stores the
parsed date as an ISO string or `None`; the model keeps the parsed
`(day, month, year, hour, minute)` tuple. -/
structure EventRecord where
  type : String
  date : Option (Nat × Nat × Nat × Nat × Nat)
  date_text : String
  message : String
deriving DecidableEq, Repr

/-- Insertion-ordered dict update, models `d[k] = v` on a Python dict. -/
def dictInsert {α : Type} (l : List (String × α)) (k : String) (v : α) :
    List (String × α) :=
  if l.any (fun p => p.1 == k) then
    l.map (fun p => if p.1 == k then (k, v) else p)
  else l ++ [(k, v)]

/-- Body of the `status_rows` loop of `_parse_status_html`: a row with a
highlighted span and a control icon overwrites `entities["alarm"]` with a
label-derived state; any other row leaves the data unchanged. -/
def statusRowUpdate (acc : StatusData) (row : Node) : StatusData :=
  match findNodes "span" (hasClass "highlighted") (childrenOf row) with
  | none => acc
  | some sp =>
    let status_text := getTextStrip sp
    match findNodes "i" (anyClassContains "icon-control") (childrenOf row) with
    | none => acc
    | some _ =>
      { acc with
          entities_alarm :=
            some ⟨"Alarme", !strContains (strLower status_text) "désactivée",
              status_text⟩ }

/-- Embedding of `MaisonProtegeeAPI._parse_status_html`.  Three tiers, each
overriding the previous: highlighted-label text, control-icon class, then
every `div class="row status"` block holding both a highlighted span and a
control icon (last row wins). -/
def _parse_status_html (doc : List Node) : StatusData :=
  let base : StatusData := { alarm_status := none, entities_alarm := none, sensors := [] }
  let s1 :=
    match findNodes "span" (hasClass "highlighted") doc with
    | none => base
    | some el =>
      let status_text := getTextStrip el
      let is_armed := strContains (strLower status_text) "activée"
        || strContains (strLower status_text) "armée"
      { base with
          alarm_status := some status_text,
          entities_alarm := some ⟨"Alarme", is_armed, status_text⟩ }
  let s2 :=
    match findNodes "i" (anyClassContains "icon-control") doc with
    | none => s1
    | some el =>
      if (classesOf el).contains "icon-control-arm" then
        { s1 with entities_alarm := some ⟨"Alarme", true, "Alarme activée"⟩ }
      else if (classesOf el).contains "icon-control-disarm" then
        { s1 with entities_alarm := some ⟨"Alarme", false, "Alarme désactivée"⟩ }
      else s1
  (findAllNodes "div" (classAttrIs "row status") doc).foldl statusRowUpdate s2

/-- Embedding of `MaisonProtegeeAPI._parse_temperatures_html`: find a table
whose class contains "table", its tbody, then for each row with at least two
cells read the room name and the temperature text (first `sup` removed, the
degree markers stripped), parse the value, and store under the slug key. -/
def _parse_temperatures_html (doc : List Node) : List (String × TempReading) :=
  match findNodes "table" (anyClassContains "table") doc with
  | none => []
  | some tbl =>
    match findNodes "tbody" anyClass (childrenOf tbl) with
    | none => []
    | some tb =>
      (findAllNodes "tr" anyClass (childrenOf tb)).foldl
        (fun acc row =>
          match findAllNodes "td" anyClass (childrenOf row) with
          | c0 :: c1 :: _ =>
            let room_name := getTextStrip c0
            let cleaned := (removeFirstTagL "sup" (childrenOf c1)).1
            let temp_text := getTextStripList cleaned
            if room_name == "" || temp_text == "" then acc
            else
              match pyFloat (strTrim (strReplace (strReplace temp_text "°C" "") "°" "")) with
              | some v =>
                let sensor_id :=
                  strReplace (strReplace (strReplace (strLower room_name) " " "_") "é" "e")
                    "&eacute;" "e"
                dictInsert acc sensor_id ⟨room_name, v, "°C"⟩
              | none => acc
          | _ => acc)
        []

/-- Normalised date parse of the events extractor:
`date_text.replace("à", "").replace("h", ":").strip()` then strptime. -/
def eventDateParse (date_text : String) : Option (Nat × Nat × Nat × Nat × Nat) :=
  pyStrptimeDMYHM (strTrim (strReplace (strReplace date_text "à" "") "h" ":"))

/-- Event record built from the first three cells of a log-table row. -/
def eventOfCells (c0 c1 c2 : Node) : EventRecord :=
  let event_type :=
    match findNodes "i" anyClass (childrenOf c0) with
    | none => "unknown"
    | some icon =>
      if (classesOf icon).contains "icon-control-arm" then "arm"
      else if (classesOf icon).contains "icon-control-disarm" then "disarm"
      else "unknown"
  let date_text := getTextStrip c1
  let message_text := getTextStrip c2
  { type := event_type,
    date := eventDateParse date_text,
    date_text := date_text,
    message := message_text }

/-- Per-row step of the events extractor: rows with fewer than three cells
are skipped, all others yield exactly one record. -/
def eventOfRow (row : Node) : Option EventRecord :=
  match findAllNodes "td" anyClass (childrenOf row) with
  | c0 :: c1 :: c2 :: _ => some (eventOfCells c0 c1 c2)
  | _ => none

/-- Embedding of `MaisonProtegeeAPI._parse_events_html`: find the table with
class "table", its tbody, and map the rows in document order. -/
def _parse_events_html (doc : List Node) : List EventRecord :=
  match findNodes "table" (hasClass "table") doc with
  | none => []
  | some tbl =>
    match findNodes "tbody" anyClass (childrenOf tbl) with
    | none => []
    | some tb => (findAllNodes "tr" anyClass (childrenOf tb)).filterMap eventOfRow

/-- A status row carries a signal when it holds both a highlighted span and
a control icon; only such rows overwrite the alarm entity in tier three. -/
def rowHasSignal (row : Node) : Bool :=
  (findNodes "span" (hasClass "highlighted") (childrenOf row)).isSome &&
  (findNodes "i" (anyClassContains "icon-control") (childrenOf row)).isSome

/-- The `len(cells) >= 3` guard of the events loop, as a predicate. -/
def rowHasThreeCells (row : Node) : Bool :=
  3 ≤ (findAllNodes "td" anyClass (childrenOf row)).length

/-- Total per-row record: for a row with at least three cells this is the
record the extractor emits from its first three cells. -/
def rowEvent (row : Node) : EventRecord :=
  match findAllNodes "td" anyClass (childrenOf row) with
  | c0 :: c1 :: c2 :: _ => eventOfCells c0 c1 c2
  | _ => ⟨"unknown", none, "", ""⟩

/-- Fixed URLs of the portal, as in the module header of the source. -/
def BASE_URL : String := "https://maisonprotegee.orange.fr"

/-- Login endpoint. -/
def LOGIN_URL : String := BASE_URL ++ "/login/auth.do"

/-- Home page; landing here after the login redirect signals success. -/
def HOME_URL : String := BASE_URL ++ "/home.do"

/-- Session state of one `MaisonProtegeeAPI` instance.  The cookie jar is
modelled as the list of cookies it holds; `_clear_session` empties it. -/
structure ClientState where
  authenticated : Bool
  lastAuthFailureTime : Option Nat
  lastSuccessfulAuthTime : Option Nat
  cookieJar : List String
deriving DecidableEq, Repr

/-- `self._auth_retry_delay = timedelta(minutes=5)`, in seconds. -/
def _auth_retry_delay : Nat := 300

/-- Embedding of `_should_retry_auth`: true when no failure is recorded or
the recorded failure is at least the retry delay in the past. -/
def _should_retry_auth (now : Nat) (s : ClientState) : Bool :=
  match s.lastAuthFailureTime with
  | none => true
  | some t => decide (_auth_retry_delay ≤ now - t)

/-- Embedding of `_clear_session`: clear the cookie jar, drop the
authenticated flag; the timestamps are untouched. -/
def _clear_session (s : ClientState) : ClientState :=
  { s with authenticated := false, cookieJar := [] }

/-- Externally visible actions, for the traces emitted by each operation:
an invocation of the auth manager, an actual login POST, and a resource GET. -/
inductive Req where
  | authCall
  | loginPost
  | fetch
deriving DecidableEq, Repr

/-- Outcome of the login POST as seen by `async_authenticate`: the final
response after redirects (status, final URL, body text), or a transport
error (`aiohttp.ClientError` or any other exception while posting). -/
inductive LoginResult where
  | resp (status : Nat) (finalUrl : String) (body : String)
  | err
deriving Repr

/-- A fetched response body: the raw text the code length-checks, together
with the DOM BeautifulSoup builds from it. -/
structure Html where
  raw : String
  dom : List Node

/-- Outcome of one resource GET: a response (status and body), or a
transport error / timeout raised while requesting. -/
inductive NetResult where
  | ok (status : Nat) (body : Html)
  | err

/-- Scripted network: login responses and resource responses, each consumed
in order.  An exhausted script behaves as a transport error. -/
structure Env where
  logins : List LoginResult
  fetches : List NetResult

/-- Result of an operation: a returned value, or an exception propagating
out of the method (only possible from the un-guarded pre-fetch
authentication call and from `async_authenticate` itself). -/
inductive OpResult (α : Type) where
  | ok (v : α)
  | raised
deriving DecidableEq, Repr

/-- Full outcome of running one method: its result, the session state after
the call, the remaining scripted network, and the emitted trace. -/
structure RunOut (α : Type) where
  res : OpResult α
  state : ClientState
  env : Env
  trace : List Req

/-- Models Python `str.endswith`. -/
def strEndsWith (s suffix : String) : Bool :=
  isPrefixL suffix.data.reverse s.data.reverse

/-- Redirect-based success check of `async_authenticate`:
`HOME_URL in final_url or final_url.endswith("/home.do")`. -/
def loginOk (finalUrl : String) : Bool :=
  strContains finalUrl HOME_URL || strEndsWith finalUrl "/home.do"

/-- Embedding of `async_authenticate`.  Backoff short-circuit first (no
network call); otherwise one login POST is consumed from the script.
Success is decided by the final URL; on a 200 body the two failure phrases
are inspected — only the already-open-session case records the failure
timestamp, the invalid-credentials case and the generic fall-through do
not.  A transport error records the failure timestamp and re-raises. -/
def async_authenticate (now : Nat) (s : ClientState) (env : Env) : RunOut Bool :=
  if !_should_retry_auth now s then
    ⟨.ok false, s, env, [.authCall]⟩
  else
    match env.logins with
    | [] =>
      ⟨.raised, { s with lastAuthFailureTime := some now },
        { env with logins := [] }, [.authCall, .loginPost]⟩
    | lr :: rest =>
      let env1 : Env := { env with logins := rest }
      match lr with
      | .err =>
        ⟨.raised, { s with lastAuthFailureTime := some now }, env1,
          [.authCall, .loginPost]⟩
      | .resp status finalUrl body =>
        if loginOk finalUrl then
          ⟨.ok true,
            { s with
                authenticated := true,
                lastAuthFailureTime := none,
                lastSuccessfulAuthTime := some now }, env1,
            [.authCall, .loginPost]⟩
        else if status = 200
            && (strContains (strLower body) "session déjà ouverte"
              || strContains (strLower body) "session deja ouverte") then
          ⟨.ok false, { s with lastAuthFailureTime := some now }, env1,
            [.authCall, .loginPost]⟩
        else if status = 200
            && (strContains (strLower body) "identifiant"
              || strContains (strLower body) "mot de passe") then
          ⟨.ok false, s, env1, [.authCall, .loginPost]⟩
        else
          ⟨.ok false, s, env1, [.authCall, .loginPost]⟩

/-- The `try` body of `async_get_status`.  The fetch is issued with
redirects disabled; 404 clears the session, 302 clears the session and
re-authenticates once (a second 302 on the retry returns no data with no
further attempt), 401/403 likewise re-authenticate once, other error
statuses raise and are absorbed by the handlers (404 clears the session,
everything else only drops the authenticated flag), an empty body clears
the session, and a parse producing neither entities nor sensors clears the
session.  Only the direct (non-retried) 2xx path performs that last
emptiness check, exactly as in the source. -/
def async_get_status_fetch (now : Nat) (s1 : ClientState) (env1 : Env)
    (tr1 : List Req) : RunOut (Option StatusData) :=
      match env1.fetches with
      | [] => ⟨.ok none, { s1 with authenticated := false }, env1, tr1 ++ [.fetch]⟩
      | nr :: fs =>
        let env2 : Env := ⟨env1.logins, fs⟩
        let tr2 := tr1 ++ [.fetch]
        match nr with
        | .err => ⟨.ok none, { s1 with authenticated := false }, env2, tr2⟩
        | .ok status body =>
          if status = 404 then
            ⟨.ok none, _clear_session s1, env2, tr2⟩
          else if status = 302 then
            let a := async_authenticate now (_clear_session s1) env2
            match a.res with
            | .raised =>
              ⟨.ok none, { a.state with authenticated := false }, a.env, tr2 ++ a.trace⟩
            | .ok false => ⟨.ok none, a.state, a.env, tr2 ++ a.trace⟩
            | .ok true =>
              match a.env.fetches with
              | [] =>
                ⟨.ok none, { a.state with authenticated := false }, a.env,
                  tr2 ++ a.trace ++ [.fetch]⟩
              | nr2 :: fs2 =>
                let env3 : Env := ⟨a.env.logins, fs2⟩
                let tr3 := tr2 ++ a.trace ++ [.fetch]
                match nr2 with
                | .err => ⟨.ok none, { a.state with authenticated := false }, env3, tr3⟩
                | .ok st2 b2 =>
                  if st2 = 302 then ⟨.ok none, a.state, env3, tr3⟩
                  else if 400 ≤ st2 then
                    if st2 = 404 then ⟨.ok none, _clear_session a.state, env3, tr3⟩
                    else ⟨.ok none, { a.state with authenticated := false }, env3, tr3⟩
                  else if strTrim b2.raw = "" then
                    ⟨.ok none, _clear_session a.state, env3, tr3⟩
                  else ⟨.ok (some (_parse_status_html b2.dom)), a.state, env3, tr3⟩
          else if status = 401 || status = 403 then
            let a := async_authenticate now (_clear_session s1) env2
            match a.res with
            | .raised =>
              ⟨.ok none, { a.state with authenticated := false }, a.env, tr2 ++ a.trace⟩
            | .ok false => ⟨.ok none, a.state, a.env, tr2 ++ a.trace⟩
            | .ok true =>
              match a.env.fetches with
              | [] =>
                ⟨.ok none, { a.state with authenticated := false }, a.env,
                  tr2 ++ a.trace ++ [.fetch]⟩
              | nr2 :: fs2 =>
                let env3 : Env := ⟨a.env.logins, fs2⟩
                let tr3 := tr2 ++ a.trace ++ [.fetch]
                match nr2 with
                | .err => ⟨.ok none, { a.state with authenticated := false }, env3, tr3⟩
                | .ok st2 b2 =>
                  if 400 ≤ st2 then
                    if st2 = 404 then ⟨.ok none, _clear_session a.state, env3, tr3⟩
                    else ⟨.ok none, { a.state with authenticated := false }, env3, tr3⟩
                  else if strTrim b2.raw = "" then
                    ⟨.ok none, _clear_session a.state, env3, tr3⟩
                  else ⟨.ok (some (_parse_status_html b2.dom)), a.state, env3, tr3⟩
          else if 400 ≤ status then
            if status = 404 then ⟨.ok none, _clear_session s1, env2, tr2⟩
            else ⟨.ok none, { s1 with authenticated := false }, env2, tr2⟩
          else if strTrim body.raw = "" then
            ⟨.ok none, _clear_session s1, env2, tr2⟩
          else
            let parsed_data := _parse_status_html body.dom
            if parsed_data.entities_alarm = none ∧ parsed_data.sensors = [] then
              ⟨.ok none, _clear_session s1, env2, tr2⟩
            else ⟨.ok (some parsed_data), s1, env2, tr2⟩

/-- Embedding of `async_get_status`: the pre-fetch authentication sits
outside the `try`, so its exceptions propagate (`.raised`) and its failure
returns no data before any fetch; then the `try` body runs. -/
def async_get_status (now : Nat) (s : ClientState) (env : Env) :
    RunOut (Option StatusData) :=
  if s.authenticated then async_get_status_fetch now s env []
  else
    let a := async_authenticate now s env
    match a.res with
    | .raised => ⟨.raised, a.state, a.env, a.trace⟩
    | .ok false => ⟨.ok none, a.state, a.env, a.trace⟩
    | .ok true => async_get_status_fetch now a.state a.env a.trace

/-- The `try` body of `async_set_status`: the action is validated first
("arm" / "disarm", anything else returns false without a request).  The
command GET is issued with redirects disabled; 302 and 401/403 drop the
authenticated flag (the cookie jar is not cleared here) and re-authenticate
once; a second 302 after a successful re-authentication returns false with
no further attempt.  Any raise inside the `try` — including
`raise_for_status` on 4xx/5xx and a raising re-authentication — is absorbed
by the single generic handler, which only drops the authenticated flag and
returns false. -/
def async_set_status_fetch (now : Nat) (action : String) (s1 : ClientState)
    (env1 : Env) (tr1 : List Req) : RunOut Bool :=
      if action ≠ "arm" ∧ action ≠ "disarm" then ⟨.ok false, s1, env1, tr1⟩
      else
        match env1.fetches with
        | [] => ⟨.ok false, { s1 with authenticated := false }, env1, tr1 ++ [.fetch]⟩
        | nr :: fs =>
          let env2 : Env := ⟨env1.logins, fs⟩
          let tr2 := tr1 ++ [.fetch]
          match nr with
          | .err => ⟨.ok false, { s1 with authenticated := false }, env2, tr2⟩
          | .ok status _ =>
            if status = 302 then
              let a := async_authenticate now { s1 with authenticated := false } env2
              match a.res with
              | .raised =>
                ⟨.ok false, { a.state with authenticated := false }, a.env, tr2 ++ a.trace⟩
              | .ok false => ⟨.ok false, a.state, a.env, tr2 ++ a.trace⟩
              | .ok true =>
                match a.env.fetches with
                | [] =>
                  ⟨.ok false, { a.state with authenticated := false }, a.env,
                    tr2 ++ a.trace ++ [.fetch]⟩
                | nr2 :: fs2 =>
                  let env3 : Env := ⟨a.env.logins, fs2⟩
                  let tr3 := tr2 ++ a.trace ++ [.fetch]
                  match nr2 with
                  | .err => ⟨.ok false, { a.state with authenticated := false }, env3, tr3⟩
                  | .ok st2 _ =>
                    if st2 = 302 then ⟨.ok false, a.state, env3, tr3⟩
                    else if 400 ≤ st2 then
                      ⟨.ok false, { a.state with authenticated := false }, env3, tr3⟩
                    else ⟨.ok true, a.state, env3, tr3⟩
            else if status = 401 || status = 403 then
              let a := async_authenticate now { s1 with authenticated := false } env2
              match a.res with
              | .raised =>
                ⟨.ok false, { a.state with authenticated := false }, a.env, tr2 ++ a.trace⟩
              | .ok false => ⟨.ok false, a.state, a.env, tr2 ++ a.trace⟩
              | .ok true =>
                match a.env.fetches with
                | [] =>
                  ⟨.ok false, { a.state with authenticated := false }, a.env,
                    tr2 ++ a.trace ++ [.fetch]⟩
                | nr2 :: fs2 =>
                  let env3 : Env := ⟨a.env.logins, fs2⟩
                  let tr3 := tr2 ++ a.trace ++ [.fetch]
                  match nr2 with
                  | .err => ⟨.ok false, { a.state with authenticated := false }, env3, tr3⟩
                  | .ok st2 _ =>
                    if 400 ≤ st2 then
                      ⟨.ok false, { a.state with authenticated := false }, env3, tr3⟩
                    else ⟨.ok true, a.state, env3, tr3⟩
            else if 400 ≤ status then
              ⟨.ok false, { s1 with authenticated := false }, env2, tr2⟩
            else ⟨.ok true, s1, env2, tr2⟩

/-- Embedding of `async_set_status`: pre-fetch authentication is outside
the `try`, so its exceptions propagate and its failure returns false before
any request; then the `try` body runs. -/
def async_set_status (now : Nat) (action : String) (s : ClientState) (env : Env) :
    RunOut Bool :=
  if s.authenticated then async_set_status_fetch now action s env []
  else
    let a := async_authenticate now s env
    match a.res with
    | .raised => ⟨.raised, a.state, a.env, a.trace⟩
    | .ok false => ⟨.ok false, a.state, a.env, a.trace⟩
    | .ok true => async_set_status_fetch now action a.state a.env a.trace

/-- The `try` body of `async_get_temperatures`.  Structurally identical to
the status fetch (with the longer per-endpoint timeout, which has no
observable effect in this model); the direct 2xx path clears the session
and returns no data when the parsed temperature dict is empty. -/
def async_get_temperatures_fetch (now : Nat) (s1 : ClientState) (env1 : Env)
    (tr1 : List Req) : RunOut (Option (List (String × TempReading))) :=
      match env1.fetches with
      | [] => ⟨.ok none, { s1 with authenticated := false }, env1, tr1 ++ [.fetch]⟩
      | nr :: fs =>
        let env2 : Env := ⟨env1.logins, fs⟩
        let tr2 := tr1 ++ [.fetch]
        match nr with
        | .err => ⟨.ok none, { s1 with authenticated := false }, env2, tr2⟩
        | .ok status body =>
          if status = 404 then
            ⟨.ok none, _clear_session s1, env2, tr2⟩
          else if status = 302 then
            let a := async_authenticate now (_clear_session s1) env2
            match a.res with
            | .raised =>
              ⟨.ok none, { a.state with authenticated := false }, a.env, tr2 ++ a.trace⟩
            | .ok false => ⟨.ok none, a.state, a.env, tr2 ++ a.trace⟩
            | .ok true =>
              match a.env.fetches with
              | [] =>
                ⟨.ok none, { a.state with authenticated := false }, a.env,
                  tr2 ++ a.trace ++ [.fetch]⟩
              | nr2 :: fs2 =>
                let env3 : Env := ⟨a.env.logins, fs2⟩
                let tr3 := tr2 ++ a.trace ++ [.fetch]
                match nr2 with
                | .err => ⟨.ok none, { a.state with authenticated := false }, env3, tr3⟩
                | .ok st2 b2 =>
                  if st2 = 302 then ⟨.ok none, a.state, env3, tr3⟩
                  else if 400 ≤ st2 then
                    if st2 = 404 then ⟨.ok none, _clear_session a.state, env3, tr3⟩
                    else ⟨.ok none, { a.state with authenticated := false }, env3, tr3⟩
                  else if strTrim b2.raw = "" then
                    ⟨.ok none, _clear_session a.state, env3, tr3⟩
                  else ⟨.ok (some (_parse_temperatures_html b2.dom)), a.state, env3, tr3⟩
          else if status = 401 || status = 403 then
            let a := async_authenticate now (_clear_session s1) env2
            match a.res with
            | .raised =>
              ⟨.ok none, { a.state with authenticated := false }, a.env, tr2 ++ a.trace⟩
            | .ok false => ⟨.ok none, a.state, a.env, tr2 ++ a.trace⟩
            | .ok true =>
              match a.env.fetches with
              | [] =>
                ⟨.ok none, { a.state with authenticated := false }, a.env,
                  tr2 ++ a.trace ++ [.fetch]⟩
              | nr2 :: fs2 =>
                let env3 : Env := ⟨a.env.logins, fs2⟩
                let tr3 := tr2 ++ a.trace ++ [.fetch]
                match nr2 with
                | .err => ⟨.ok none, { a.state with authenticated := false }, env3, tr3⟩
                | .ok st2 b2 =>
                  if 400 ≤ st2 then
                    if st2 = 404 then ⟨.ok none, _clear_session a.state, env3, tr3⟩
                    else ⟨.ok none, { a.state with authenticated := false }, env3, tr3⟩
                  else if strTrim b2.raw = "" then
                    ⟨.ok none, _clear_session a.state, env3, tr3⟩
                  else ⟨.ok (some (_parse_temperatures_html b2.dom)), a.state, env3, tr3⟩
          else if 400 ≤ status then
            if status = 404 then ⟨.ok none, _clear_session s1, env2, tr2⟩
            else ⟨.ok none, { s1 with authenticated := false }, env2, tr2⟩
          else if strTrim body.raw = "" then
            ⟨.ok none, _clear_session s1, env2, tr2⟩
          else
            let parsed_data := _parse_temperatures_html body.dom
            if parsed_data = [] then
              ⟨.ok none, _clear_session s1, env2, tr2⟩
            else ⟨.ok (some parsed_data), s1, env2, tr2⟩

/-- Embedding of `async_get_temperatures`: pre-fetch authentication outside
the `try`, then the `try` body. -/
def async_get_temperatures (now : Nat) (s : ClientState) (env : Env) :
    RunOut (Option (List (String × TempReading))) :=
  if s.authenticated then async_get_temperatures_fetch now s env []
  else
    let a := async_authenticate now s env
    match a.res with
    | .raised => ⟨.raised, a.state, a.env, a.trace⟩
    | .ok false => ⟨.ok none, a.state, a.env, a.trace⟩
    | .ok true => async_get_temperatures_fetch now a.state a.env a.trace

/-- The `try` body of `async_get_events`.  Same protocol as the other reads
with two differences taken from the source: the method has no
`ClientResponseError`-specific handler, so an error status raised by
`raise_for_status` (404 included) only drops the authenticated flag and
never clears the cookie jar; and the direct 2xx path returns the parsed
list as-is — an empty parse is returned, not converted to no-data, and the
session is left intact. -/
def async_get_events_fetch (now : Nat) (s1 : ClientState) (env1 : Env)
    (tr1 : List Req) : RunOut (Option (List EventRecord)) :=
      match env1.fetches with
      | [] => ⟨.ok none, { s1 with authenticated := false }, env1, tr1 ++ [.fetch]⟩
      | nr :: fs =>
        let env2 : Env := ⟨env1.logins, fs⟩
        let tr2 := tr1 ++ [.fetch]
        match nr with
        | .err => ⟨.ok none, { s1 with authenticated := false }, env2, tr2⟩
        | .ok status body =>
          if status = 404 then
            ⟨.ok none, _clear_session s1, env2, tr2⟩
          else if status = 302 then
            let a := async_authenticate now (_clear_session s1) env2
            match a.res with
            | .raised =>
              ⟨.ok none, { a.state with authenticated := false }, a.env, tr2 ++ a.trace⟩
            | .ok false => ⟨.ok none, a.state, a.env, tr2 ++ a.trace⟩
            | .ok true =>
              match a.env.fetches with
              | [] =>
                ⟨.ok none, { a.state with authenticated := false }, a.env,
                  tr2 ++ a.trace ++ [.fetch]⟩
              | nr2 :: fs2 =>
                let env3 : Env := ⟨a.env.logins, fs2⟩
                let tr3 := tr2 ++ a.trace ++ [.fetch]
                match nr2 with
                | .err => ⟨.ok none, { a.state with authenticated := false }, env3, tr3⟩
                | .ok st2 b2 =>
                  if st2 = 302 then ⟨.ok none, a.state, env3, tr3⟩
                  else if 400 ≤ st2 then
                    ⟨.ok none, { a.state with authenticated := false }, env3, tr3⟩
                  else if strTrim b2.raw = "" then
                    ⟨.ok none, _clear_session a.state, env3, tr3⟩
                  else ⟨.ok (some (_parse_events_html b2.dom)), a.state, env3, tr3⟩
          else if status = 401 || status = 403 then
            let a := async_authenticate now (_clear_session s1) env2
            match a.res with
            | .raised =>
              ⟨.ok none, { a.state with authenticated := false }, a.env, tr2 ++ a.trace⟩
            | .ok false => ⟨.ok none, a.state, a.env, tr2 ++ a.trace⟩
            | .ok true =>
              match a.env.fetches with
              | [] =>
                ⟨.ok none, { a.state with authenticated := false }, a.env,
                  tr2 ++ a.trace ++ [.fetch]⟩
              | nr2 :: fs2 =>
                let env3 : Env := ⟨a.env.logins, fs2⟩
                let tr3 := tr2 ++ a.trace ++ [.fetch]
                match nr2 with
                | .err => ⟨.ok none, { a.state with authenticated := false }, env3, tr3⟩
                | .ok st2 b2 =>
                  if 400 ≤ st2 then
                    ⟨.ok none, { a.state with authenticated := false }, env3, tr3⟩
                  else if strTrim b2.raw = "" then
                    ⟨.ok none, _clear_session a.state, env3, tr3⟩
                  else ⟨.ok (some (_parse_events_html b2.dom)), a.state, env3, tr3⟩
          else if 400 ≤ status then
            ⟨.ok none, { s1 with authenticated := false }, env2, tr2⟩
          else if strTrim body.raw = "" then
            ⟨.ok none, _clear_session s1, env2, tr2⟩
          else ⟨.ok (some (_parse_events_html body.dom)), s1, env2, tr2⟩

/-- Embedding of `async_get_events`: pre-fetch authentication outside the
`try`, then the `try` body.  The `days` parameter only shapes the query
string and has no observable effect in this model. -/
def async_get_events (now : Nat) (days : Nat) (s : ClientState) (env : Env) :
    RunOut (Option (List EventRecord)) :=
  let _ := days
  if s.authenticated then async_get_events_fetch now s env []
  else
    let a := async_authenticate now s env
    match a.res with
    | .raised => ⟨.raised, a.state, a.env, a.trace⟩
    | .ok false => ⟨.ok none, a.state, a.env, a.trace⟩
    | .ok true => async_get_events_fetch now a.state a.env a.trace

/-- Embedding of `async_logout`: a no-op when unauthenticated and not
forced; otherwise one GET to the logout endpoint, and the authenticated
flag is dropped both on a response and on a raise (the handler swallows
every exception).  The cookie jar and timestamps are untouched. -/
def async_logout (s : ClientState) (force : Bool) (nr : NetResult) :
    ClientState × List Req :=
  if !s.authenticated && !force then (s, [])
  else
    match nr with
    | .ok _ _ => ({ s with authenticated := false }, [.fetch])
    | .err => ({ s with authenticated := false }, [.fetch])

/-- Clearing the session does not change the recorded failure time, so the
backoff test is unaffected. -/
theorem _should_retry_auth_clear (now : Nat) (s : ClientState) :
    _should_retry_auth now (_clear_session s) = _should_retry_auth now s := rfl

/-- Dropping the authenticated flag does not change the backoff test. -/
theorem _should_retry_auth_unauth (now : Nat) (s : ClientState) :
    _should_retry_auth now { s with authenticated := false } = _should_retry_auth now s := rfl

/-- The auth manager emits either just its invocation marker (backoff
short-circuit) or the marker followed by exactly one login POST. -/
theorem async_authenticate_trace (now : Nat) (s : ClientState) (env : Env) :
    (async_authenticate now s env).trace = [.authCall] ∨
    (async_authenticate now s env).trace = [.authCall, .loginPost] := by
  unfold async_authenticate
  split
  · exact Or.inl rfl
  · rcases env with ⟨ls, fs⟩
    cases ls with
    | nil => exact Or.inr rfl
    | cons lr rest =>
      cases lr with
      | err => exact Or.inr rfl
      | resp st u b =>
        refine Or.inr ?_
        simp only
        split
        · rfl
        · split
          · rfl
          · split <;> rfl

/-- The auth manager never issues a resource fetch. -/
theorem async_authenticate_no_fetch (now : Nat) (s : ClientState) (env : Env) :
    (async_authenticate now s env).trace.count .fetch = 0 := by
  rcases async_authenticate_trace now s env with h | h <;> rw [h] <;> decide

/-- The auth manager trace always begins with its invocation marker. -/
theorem async_authenticate_head (now : Nat) (s : ClientState) (env : Env) :
    (async_authenticate now s env).trace.head? = some .authCall := by
  rcases async_authenticate_trace now s env with h | h <;> rw [h] <;> rfl

/-- C2: with a failure recorded at time `t`, a call to `authenticate()`
strictly less than 5 minutes (300 s) later returns false, changes nothing,
and makes no network call (trace is only the invocation marker); a call at
or beyond the cooldown reaches the login POST. -/
theorem claim2_auth_backoff_window (now t : Nat) (s : ClientState) (env : Env)
    (hfail : s.lastAuthFailureTime = some t) (_hle : t ≤ now) :
    (now - t < 300 →
      async_authenticate now s env = ⟨.ok false, s, env, [.authCall]⟩) ∧
    (300 ≤ now - t → .loginPost ∈ (async_authenticate now s env).trace) := by
  constructor
  · intro h
    have hb : _should_retry_auth now s = false := by
      simp only [_should_retry_auth, hfail, _auth_retry_delay,
        decide_eq_false_iff_not]
      omega
    unfold async_authenticate
    rw [hb]
    rfl
  · intro h
    have hb : _should_retry_auth now s = true := by
      simp only [_should_retry_auth, hfail, _auth_retry_delay, decide_eq_true_eq]
      omega
    rcases async_authenticate_trace now s env with htr | htr
    · exfalso
      unfold async_authenticate at htr
      rw [hb] at htr
      simp only [Bool.not_true, Bool.false_eq_true, if_false] at htr
      rcases env with ⟨ls, fs⟩
      cases ls with
      | nil => simp at htr
      | cons lr rest =>
        cases lr with
        | err => simp at htr
        | resp st u b =>
          simp only at htr
          revert htr
          split
          · intro htr; simp at htr
          · split
            · intro htr; simp at htr
            · split <;> (intro htr; simp at htr)
    · rw [htr]; simp

/-- Witness for C2 at concrete inputs: a failure at time 0 blocks a call at
time 100 with no login POST, and a call at time 300 reaches the POST. -/
theorem claim2_auth_backoff_window_witness :
    (async_authenticate 100 ⟨false, some 0, none, []⟩ ⟨[], []⟩ =
      ⟨.ok false, ⟨false, some 0, none, []⟩, ⟨[], []⟩, [.authCall]⟩) ∧
    .loginPost ∈ (async_authenticate 300 ⟨false, some 0, none, []⟩ ⟨[], []⟩).trace :=
  ⟨(claim2_auth_backoff_window 100 0 ⟨false, some 0, none, []⟩ ⟨[], []⟩ rfl
      (by decide)).1 (by decide),
   (claim2_auth_backoff_window 300 0 ⟨false, some 0, none, []⟩ ⟨[], []⟩ rfl
      (by decide)).2 (by decide)⟩

/-- C10: `async_logout` with `force=false` while unauthenticated returns
immediately with no request and an unchanged state; in every other case the
authenticated flag is false on return — also when the request raises — and
the cookie jar and timestamps are untouched. -/
theorem claim10_logout (s : ClientState) (force : Bool) (nr : NetResult) :
    (s.authenticated = false → async_logout s false nr = (s, [])) ∧
    (s.authenticated = true ∨ force = true →
      (async_logout s force nr).1.authenticated = false ∧
      (async_logout s force nr).1.cookieJar = s.cookieJar ∧
      (async_logout s force nr).1.lastAuthFailureTime = s.lastAuthFailureTime ∧
      (async_logout s force nr).2 = [.fetch]) := by
  constructor
  · intro h
    unfold async_logout
    rw [h]
    rfl
  · intro h
    have hcond : (!s.authenticated && !force) = false := by
      rcases h with h | h <;> rw [h] <;> simp
    unfold async_logout
    rw [hcond]
    cases nr <;> simp

/-- Witness for C10: both cases at concrete inputs, the second with a
raising request. -/
theorem claim10_logout_witness :
    (async_logout ⟨false, none, none, ["c"]⟩ false .err =
      (⟨false, none, none, ["c"]⟩, [])) ∧
    ((async_logout ⟨true, none, none, ["c"]⟩ false .err).1.authenticated = false ∧
      (async_logout ⟨true, none, none, ["c"]⟩ false .err).1.cookieJar = ["c"] ∧
      (async_logout ⟨true, none, none, ["c"]⟩ false .err).1.lastAuthFailureTime = none ∧
      (async_logout ⟨true, none, none, ["c"]⟩ false .err).2 = [.fetch]) :=
  ⟨(claim10_logout ⟨false, none, none, ["c"]⟩ false .err).1 rfl,
   (claim10_logout ⟨true, none, none, ["c"]⟩ false .err).2 (Or.inl rfl)⟩

/-- Counterexample to C5: a 200 login response whose body shows the login
form ("identifiant") makes `authenticate()` return false, but the failure
timestamp stays `none` — the backoff window is NOT armed, contradicting the
claim that this path records the failure timestamp. -/
theorem claim5_counterexample_no_backoff_armed :
    (async_authenticate 0 ⟨false, none, none, []⟩
      ⟨[.resp 200 "https://maisonprotegee.orange.fr/login/auth.do" "identifiant requis"],
        []⟩).res = .ok false ∧
    (async_authenticate 0 ⟨false, none, none, []⟩
      ⟨[.resp 200 "https://maisonprotegee.orange.fr/login/auth.do" "identifiant requis"],
        []⟩).state.lastAuthFailureTime = none := by
  exact ⟨rfl, rfl⟩

/-- C5 (amended): on a 200 login response whose body contains the login-form
phrases (and is not the already-open-session page), `authenticate()` returns
false and leaves the state — the failure timestamp included — completely
unchanged: this variant of the code does not arm the backoff window. -/
theorem claim5_amended_invalid_credentials_no_backoff
    (now : Nat) (s : ClientState) (url body : String)
    (ls : List LoginResult) (fs : List NetResult)
    (hretry : _should_retry_auth now s = true)
    (hurl : loginOk url = false)
    (hdeja1 : strContains (strLower body) "session déjà ouverte" = false)
    (hdeja2 : strContains (strLower body) "session deja ouverte" = false)
    (_hcred : strContains (strLower body) "identifiant" = true ∨
      strContains (strLower body) "mot de passe" = true) :
    async_authenticate now s ⟨.resp 200 url body :: ls, fs⟩ =
      ⟨.ok false, s, ⟨ls, fs⟩, [.authCall, .loginPost]⟩ := by
  unfold async_authenticate
  rw [hretry]
  simp only [Bool.not_true, Bool.false_eq_true, if_false]
  rw [hurl]
  simp only [Bool.false_eq_true, if_false, hdeja1, hdeja2, Bool.or_self,
    Bool.and_false, ite_self]

/-- Witness for C5 (amended) at the counterexample input. -/
theorem claim5_amended_invalid_credentials_no_backoff_witness :
    async_authenticate 0 ⟨false, none, none, []⟩
      ⟨[.resp 200 "https://maisonprotegee.orange.fr/login/auth.do" "identifiant requis"],
        []⟩ =
      ⟨.ok false, ⟨false, none, none, []⟩, ⟨[], []⟩, [.authCall, .loginPost]⟩ :=
  claim5_amended_invalid_credentials_no_backoff 0 ⟨false, none, none, []⟩
    "https://maisonprotegee.orange.fr/login/auth.do" "identifiant requis" [] []
    rfl rfl rfl rfl (Or.inl rfl)

/-- The trace argument threaded into the status fetch body is a prefix of
the emitted trace: the body only ever appends to it. -/
theorem async_get_status_fetch_trace_isPrefix (now : Nat) (s1 : ClientState)
    (env1 : Env) (tr1 : List Req) :
    List.IsPrefix tr1 (async_get_status_fetch now s1 env1 tr1).trace := by
  unfold async_get_status_fetch
  repeat' split
  all_goals (try simp only [List.append_assoc])
  all_goals try exact List.prefix_append _ _
  all_goals repeat' split
  all_goals (try simp only [List.append_assoc])
  all_goals first
    | exact List.prefix_append _ _
    | exact List.prefix_refl _

/-- The trace argument threaded into the temperatures fetch body is a
prefix of the emitted trace. -/
theorem async_get_temperatures_fetch_trace_isPrefix (now : Nat)
    (s1 : ClientState) (env1 : Env) (tr1 : List Req) :
    List.IsPrefix tr1 (async_get_temperatures_fetch now s1 env1 tr1).trace := by
  unfold async_get_temperatures_fetch
  repeat' split
  all_goals (try simp only [List.append_assoc])
  all_goals try exact List.prefix_append _ _
  all_goals repeat' split
  all_goals (try simp only [List.append_assoc])
  all_goals first
    | exact List.prefix_append _ _
    | exact List.prefix_refl _

/-- The trace argument threaded into the events fetch body is a prefix of
the emitted trace. -/
theorem async_get_events_fetch_trace_isPrefix (now : Nat) (s1 : ClientState)
    (env1 : Env) (tr1 : List Req) :
    List.IsPrefix tr1 (async_get_events_fetch now s1 env1 tr1).trace := by
  unfold async_get_events_fetch
  repeat' split
  all_goals (try simp only [List.append_assoc])
  all_goals try exact List.prefix_append _ _
  all_goals repeat' split
  all_goals (try simp only [List.append_assoc])
  all_goals first
    | exact List.prefix_append _ _
    | exact List.prefix_refl _

/-- The trace argument threaded into the set-status fetch body is a prefix
of the emitted trace (also when the action is rejected before the request). -/
theorem async_set_status_fetch_trace_isPrefix (now : Nat) (action : String)
    (s1 : ClientState) (env1 : Env) (tr1 : List Req) :
    List.IsPrefix tr1 (async_set_status_fetch now action s1 env1 tr1).trace := by
  unfold async_set_status_fetch
  repeat' split
  all_goals (try simp only [List.append_assoc])
  all_goals try exact List.prefix_append _ _
  all_goals try exact List.prefix_refl _
  all_goals repeat' split
  all_goals (try simp only [List.append_assoc])
  all_goals first
    | exact List.prefix_append _ _
    | exact List.prefix_refl _

/-- C6: every operation invoked while the authenticated flag is false runs
the auth manager before any resource request: the auth run's trace — which
begins with the invocation marker and contains no fetch — is a prefix of
the operation's trace whether the authentication fails or succeeds, so
every fetch happens only after the authentication completes; and when that
authentication returns false the operation's entire effect is the auth
run — the no-data / false result and not a single fetch (in particular
`async_set_status` sends no command request, for any action). -/
theorem claim6_auth_before_fetch (now days : Nat) (action : String)
    (s : ClientState) (env : Env)
    (hna : s.authenticated = false) :
    ((async_authenticate now s env).trace.count .fetch = 0 ∧
      (async_authenticate now s env).trace.head? = some .authCall) ∧
    (List.IsPrefix (async_authenticate now s env).trace
        (async_get_status now s env).trace ∧
      List.IsPrefix (async_authenticate now s env).trace
        (async_get_temperatures now s env).trace ∧
      List.IsPrefix (async_authenticate now s env).trace
        (async_get_events now days s env).trace ∧
      List.IsPrefix (async_authenticate now s env).trace
        (async_set_status now action s env).trace) ∧
    ((async_authenticate now s env).res = .ok false →
      (async_get_status now s env =
          ⟨.ok none, (async_authenticate now s env).state,
            (async_authenticate now s env).env,
            (async_authenticate now s env).trace⟩ ∧
        (async_get_status now s env).trace.count .fetch = 0) ∧
      (async_get_temperatures now s env =
          ⟨.ok none, (async_authenticate now s env).state,
            (async_authenticate now s env).env,
            (async_authenticate now s env).trace⟩ ∧
        (async_get_temperatures now s env).trace.count .fetch = 0) ∧
      (async_get_events now days s env =
          ⟨.ok none, (async_authenticate now s env).state,
            (async_authenticate now s env).env,
            (async_authenticate now s env).trace⟩ ∧
        (async_get_events now days s env).trace.count .fetch = 0) ∧
      (async_set_status now action s env =
          ⟨.ok false, (async_authenticate now s env).state,
            (async_authenticate now s env).env,
            (async_authenticate now s env).trace⟩ ∧
        (async_set_status now action s env).trace.count .fetch = 0)) := by
  refine ⟨⟨async_authenticate_no_fetch now s env, async_authenticate_head now s env⟩,
    ⟨?_, ?_, ?_, ?_⟩, ?_⟩
  · unfold async_get_status
    simp only [hna, Bool.false_eq_true, if_false]
    cases hres : (async_authenticate now s env).res with
    | raised => simp only [hres]; exact List.prefix_refl _
    | ok b =>
      cases b with
      | false => simp only [hres]; exact List.prefix_refl _
      | true =>
        simp only [hres]
        exact async_get_status_fetch_trace_isPrefix now
          (async_authenticate now s env).state (async_authenticate now s env).env
          (async_authenticate now s env).trace
  · unfold async_get_temperatures
    simp only [hna, Bool.false_eq_true, if_false]
    cases hres : (async_authenticate now s env).res with
    | raised => simp only [hres]; exact List.prefix_refl _
    | ok b =>
      cases b with
      | false => simp only [hres]; exact List.prefix_refl _
      | true =>
        simp only [hres]
        exact async_get_temperatures_fetch_trace_isPrefix now
          (async_authenticate now s env).state (async_authenticate now s env).env
          (async_authenticate now s env).trace
  · unfold async_get_events
    simp only [hna, Bool.false_eq_true, if_false]
    cases hres : (async_authenticate now s env).res with
    | raised => simp only [hres]; exact List.prefix_refl _
    | ok b =>
      cases b with
      | false => simp only [hres]; exact List.prefix_refl _
      | true =>
        simp only [hres]
        exact async_get_events_fetch_trace_isPrefix now
          (async_authenticate now s env).state (async_authenticate now s env).env
          (async_authenticate now s env).trace
  · unfold async_set_status
    simp only [hna, Bool.false_eq_true, if_false]
    cases hres : (async_authenticate now s env).res with
    | raised => simp only [hres]; exact List.prefix_refl _
    | ok b =>
      cases b with
      | false => simp only [hres]; exact List.prefix_refl _
      | true =>
        simp only [hres]
        exact async_set_status_fetch_trace_isPrefix now action
          (async_authenticate now s env).state (async_authenticate now s env).env
          (async_authenticate now s env).trace
  · intro hfail
    have hs : async_get_status now s env =
        ⟨.ok none, (async_authenticate now s env).state,
          (async_authenticate now s env).env, (async_authenticate now s env).trace⟩ := by
      unfold async_get_status
      simp only [hna, Bool.false_eq_true, if_false, hfail]
    have ht : async_get_temperatures now s env =
        ⟨.ok none, (async_authenticate now s env).state,
          (async_authenticate now s env).env, (async_authenticate now s env).trace⟩ := by
      unfold async_get_temperatures
      simp only [hna, Bool.false_eq_true, if_false, hfail]
    have he : async_get_events now days s env =
        ⟨.ok none, (async_authenticate now s env).state,
          (async_authenticate now s env).env, (async_authenticate now s env).trace⟩ := by
      unfold async_get_events
      simp only [hna, Bool.false_eq_true, if_false, hfail]
    have hc : async_set_status now action s env =
        ⟨.ok false, (async_authenticate now s env).state,
          (async_authenticate now s env).env, (async_authenticate now s env).trace⟩ := by
      unfold async_set_status
      simp only [hna, Bool.false_eq_true, if_false, hfail]
    refine ⟨⟨hs, ?_⟩, ⟨ht, ?_⟩, ⟨he, ?_⟩, ⟨hc, ?_⟩⟩
    · rw [hs]; exact async_authenticate_no_fetch now s env
    · rw [ht]; exact async_authenticate_no_fetch now s env
    · rw [he]; exact async_authenticate_no_fetch now s env
    · rw [hc]; exact async_authenticate_no_fetch now s env

/-- Witness for C6 at two concrete inputs: one where authentication
succeeds (login redirecting to home, then a 200 fetch) — the auth trace is
a prefix of every operation's trace, so the issued requests follow it —
and one where it fails (fresh failure recorded, so backoff short-circuits)
— every operation returns no data / false with zero fetches. -/
theorem claim6_auth_before_fetch_witness :
    ((async_authenticate 0 ⟨false, none, none, []⟩
        ⟨[.resp 200 "https://maisonprotegee.orange.fr/home.do" ""],
          [.ok 200 ⟨"x", []⟩]⟩).trace.count .fetch = 0 ∧
      (async_authenticate 0 ⟨false, none, none, []⟩
        ⟨[.resp 200 "https://maisonprotegee.orange.fr/home.do" ""],
          [.ok 200 ⟨"x", []⟩]⟩).trace.head? = some .authCall) ∧
    (List.IsPrefix
        (async_authenticate 0 ⟨false, none, none, []⟩
          ⟨[.resp 200 "https://maisonprotegee.orange.fr/home.do" ""],
            [.ok 200 ⟨"x", []⟩]⟩).trace
        (async_get_status 0 ⟨false, none, none, []⟩
          ⟨[.resp 200 "https://maisonprotegee.orange.fr/home.do" ""],
            [.ok 200 ⟨"x", []⟩]⟩).trace ∧
      List.IsPrefix
        (async_authenticate 0 ⟨false, none, none, []⟩
          ⟨[.resp 200 "https://maisonprotegee.orange.fr/home.do" ""],
            [.ok 200 ⟨"x", []⟩]⟩).trace
        (async_get_temperatures 0 ⟨false, none, none, []⟩
          ⟨[.resp 200 "https://maisonprotegee.orange.fr/home.do" ""],
            [.ok 200 ⟨"x", []⟩]⟩).trace ∧
      List.IsPrefix
        (async_authenticate 0 ⟨false, none, none, []⟩
          ⟨[.resp 200 "https://maisonprotegee.orange.fr/home.do" ""],
            [.ok 200 ⟨"x", []⟩]⟩).trace
        (async_get_events 0 30 ⟨false, none, none, []⟩
          ⟨[.resp 200 "https://maisonprotegee.orange.fr/home.do" ""],
            [.ok 200 ⟨"x", []⟩]⟩).trace ∧
      List.IsPrefix
        (async_authenticate 0 ⟨false, none, none, []⟩
          ⟨[.resp 200 "https://maisonprotegee.orange.fr/home.do" ""],
            [.ok 200 ⟨"x", []⟩]⟩).trace
        (async_set_status 0 "arm" ⟨false, none, none, []⟩
          ⟨[.resp 200 "https://maisonprotegee.orange.fr/home.do" ""],
            [.ok 200 ⟨"x", []⟩]⟩).trace) ∧
    ((async_get_status 10 ⟨false, some 0, none, []⟩ ⟨[], []⟩ =
          ⟨.ok none,
            (async_authenticate 10 ⟨false, some 0, none, []⟩ ⟨[], []⟩).state,
            (async_authenticate 10 ⟨false, some 0, none, []⟩ ⟨[], []⟩).env,
            (async_authenticate 10 ⟨false, some 0, none, []⟩ ⟨[], []⟩).trace⟩ ∧
        (async_get_status 10 ⟨false, some 0, none, []⟩ ⟨[], []⟩).trace.count .fetch
          = 0) ∧
      (async_get_temperatures 10 ⟨false, some 0, none, []⟩ ⟨[], []⟩ =
          ⟨.ok none,
            (async_authenticate 10 ⟨false, some 0, none, []⟩ ⟨[], []⟩).state,
            (async_authenticate 10 ⟨false, some 0, none, []⟩ ⟨[], []⟩).env,
            (async_authenticate 10 ⟨false, some 0, none, []⟩ ⟨[], []⟩).trace⟩ ∧
        (async_get_temperatures 10 ⟨false, some 0, none, []⟩ ⟨[], []⟩).trace.count
          .fetch = 0) ∧
      (async_get_events 10 30 ⟨false, some 0, none, []⟩ ⟨[], []⟩ =
          ⟨.ok none,
            (async_authenticate 10 ⟨false, some 0, none, []⟩ ⟨[], []⟩).state,
            (async_authenticate 10 ⟨false, some 0, none, []⟩ ⟨[], []⟩).env,
            (async_authenticate 10 ⟨false, some 0, none, []⟩ ⟨[], []⟩).trace⟩ ∧
        (async_get_events 10 30 ⟨false, some 0, none, []⟩ ⟨[], []⟩).trace.count
          .fetch = 0) ∧
      (async_set_status 10 "arm" ⟨false, some 0, none, []⟩ ⟨[], []⟩ =
          ⟨.ok false,
            (async_authenticate 10 ⟨false, some 0, none, []⟩ ⟨[], []⟩).state,
            (async_authenticate 10 ⟨false, some 0, none, []⟩ ⟨[], []⟩).env,
            (async_authenticate 10 ⟨false, some 0, none, []⟩ ⟨[], []⟩).trace⟩ ∧
        (async_set_status 10 "arm" ⟨false, some 0, none, []⟩ ⟨[], []⟩).trace.count
          .fetch = 0)) :=
  ⟨(claim6_auth_before_fetch 0 30 "arm" ⟨false, none, none, []⟩
      ⟨[.resp 200 "https://maisonprotegee.orange.fr/home.do" ""],
        [.ok 200 ⟨"x", []⟩]⟩ rfl).1,
   (claim6_auth_before_fetch 0 30 "arm" ⟨false, none, none, []⟩
      ⟨[.resp 200 "https://maisonprotegee.orange.fr/home.do" ""],
        [.ok 200 ⟨"x", []⟩]⟩ rfl).2.1,
   (claim6_auth_before_fetch 10 30 "arm" ⟨false, some 0, none, []⟩
      ⟨[], []⟩ rfl).2.2 rfl⟩

/-- A login response whose final URL passes the redirect check makes the
auth manager succeed: authenticated set, failure timestamp cleared, success
timestamp recorded, one login POST consumed. -/
theorem async_authenticate_success (now st : Nat) (s : ClientState)
    (url body : String) (ls : List LoginResult) (fs : List NetResult)
    (hretry : _should_retry_auth now s = true) (hl : loginOk url = true) :
    async_authenticate now s ⟨.resp st url body :: ls, fs⟩ =
      ⟨.ok true,
        { s with
            authenticated := true,
            lastAuthFailureTime := none,
            lastSuccessfulAuthTime := some now },
        ⟨ls, fs⟩, [.authCall, .loginPost]⟩ := by
  unfold async_authenticate
  rw [hretry]
  simp only [Bool.not_true, Bool.false_eq_true, if_false, hl, if_true]

/-- C1: from an authenticated state, when the initial fetch returns 302 and
the subsequent re-authentication succeeds (backoff open, login redirect to
home), every resource operation — status, temperatures, events, and the
set-status command with a valid action — retries the fetch exactly once;
when that single retried fetch again returns 302 the operation returns the
no-data / false result, the trace holds exactly two fetches, and the
remaining fetch script is untouched — no third attempt is issued. -/
theorem claim1_second_302_bounds_retry (now st days : Nat)
    (url lbody : String) (action : String) (s : ClientState) (b1 b2 : Html)
    (ls : List LoginResult) (fs : List NetResult)
    (hs : s.authenticated = true)
    (hretry : _should_retry_auth now s = true)
    (hl : loginOk url = true)
    (haction : action = "arm" ∨ action = "disarm") :
    ((async_get_status now s
        ⟨.resp st url lbody :: ls, .ok 302 b1 :: .ok 302 b2 :: fs⟩).res = .ok none ∧
      (async_get_status now s
        ⟨.resp st url lbody :: ls, .ok 302 b1 :: .ok 302 b2 :: fs⟩).trace.count .fetch
        = 2 ∧
      (async_get_status now s
        ⟨.resp st url lbody :: ls, .ok 302 b1 :: .ok 302 b2 :: fs⟩).env.fetches = fs) ∧
    ((async_get_temperatures now s
        ⟨.resp st url lbody :: ls, .ok 302 b1 :: .ok 302 b2 :: fs⟩).res = .ok none ∧
      (async_get_temperatures now s
        ⟨.resp st url lbody :: ls, .ok 302 b1 :: .ok 302 b2 :: fs⟩).trace.count .fetch
        = 2 ∧
      (async_get_temperatures now s
        ⟨.resp st url lbody :: ls, .ok 302 b1 :: .ok 302 b2 :: fs⟩).env.fetches = fs) ∧
    ((async_get_events now days s
        ⟨.resp st url lbody :: ls, .ok 302 b1 :: .ok 302 b2 :: fs⟩).res = .ok none ∧
      (async_get_events now days s
        ⟨.resp st url lbody :: ls, .ok 302 b1 :: .ok 302 b2 :: fs⟩).trace.count .fetch
        = 2 ∧
      (async_get_events now days s
        ⟨.resp st url lbody :: ls, .ok 302 b1 :: .ok 302 b2 :: fs⟩).env.fetches = fs) ∧
    ((async_set_status now action s
        ⟨.resp st url lbody :: ls, .ok 302 b1 :: .ok 302 b2 :: fs⟩).res = .ok false ∧
      (async_set_status now action s
        ⟨.resp st url lbody :: ls, .ok 302 b1 :: .ok 302 b2 :: fs⟩).trace.count .fetch
        = 2 ∧
      (async_set_status now action s
        ⟨.resp st url lbody :: ls, .ok 302 b1 :: .ok 302 b2 :: fs⟩).env.fetches = fs) := by
  have ha := async_authenticate_success now st (_clear_session s) url lbody ls
    (.ok 302 b2 :: fs) (by rw [_should_retry_auth_clear]; exact hretry) hl
  have ha2 := async_authenticate_success now st { s with authenticated := false }
    url lbody ls (.ok 302 b2 :: fs)
    (by rw [_should_retry_auth_unauth]; exact hretry) hl
  refine ⟨?_, ?_, ?_, ?_⟩
  · have Hs : async_get_status now s
        ⟨.resp st url lbody :: ls, .ok 302 b1 :: .ok 302 b2 :: fs⟩ =
        ⟨.ok none,
          { _clear_session s with
              authenticated := true,
              lastAuthFailureTime := none,
              lastSuccessfulAuthTime := some now },
          ⟨ls, fs⟩, [.fetch, .authCall, .loginPost, .fetch]⟩ := by
      unfold async_get_status async_get_status_fetch
      simp only [hs, if_true, ha]
      simp
    rw [Hs]
    exact ⟨rfl, rfl, rfl⟩
  · have Ht : async_get_temperatures now s
        ⟨.resp st url lbody :: ls, .ok 302 b1 :: .ok 302 b2 :: fs⟩ =
        ⟨.ok none,
          { _clear_session s with
              authenticated := true,
              lastAuthFailureTime := none,
              lastSuccessfulAuthTime := some now },
          ⟨ls, fs⟩, [.fetch, .authCall, .loginPost, .fetch]⟩ := by
      unfold async_get_temperatures async_get_temperatures_fetch
      simp only [hs, if_true, ha]
      simp
    rw [Ht]
    exact ⟨rfl, rfl, rfl⟩
  · have He : async_get_events now days s
        ⟨.resp st url lbody :: ls, .ok 302 b1 :: .ok 302 b2 :: fs⟩ =
        ⟨.ok none,
          { _clear_session s with
              authenticated := true,
              lastAuthFailureTime := none,
              lastSuccessfulAuthTime := some now },
          ⟨ls, fs⟩, [.fetch, .authCall, .loginPost, .fetch]⟩ := by
      unfold async_get_events async_get_events_fetch
      simp only [hs, if_true, ha]
      simp
    rw [He]
    exact ⟨rfl, rfl, rfl⟩
  · have Hc : async_set_status now action s
        ⟨.resp st url lbody :: ls, .ok 302 b1 :: .ok 302 b2 :: fs⟩ =
        ⟨.ok false,
          { authenticated := true,
            lastAuthFailureTime := none,
            lastSuccessfulAuthTime := some now,
            cookieJar := s.cookieJar },
          ⟨ls, fs⟩, [.fetch, .authCall, .loginPost, .fetch]⟩ := by
      rcases haction with h | h <;> subst h <;>
        (unfold async_set_status async_set_status_fetch
         simp only [hs, if_true, ha2]
         simp)
    rw [Hc]
    exact ⟨rfl, rfl, rfl⟩

/-- Witness for C1 at concrete inputs: authenticated state, a scripted
302/302 fetch pair, and a successful login redirecting to the home page. -/
theorem claim1_second_302_bounds_retry_witness :
    ((async_get_status 0 ⟨true, none, none, []⟩
        ⟨[.resp 200 "https://maisonprotegee.orange.fr/home.do" ""],
          [.ok 302 ⟨"", []⟩, .ok 302 ⟨"", []⟩]⟩).res = .ok none ∧
      (async_get_status 0 ⟨true, none, none, []⟩
        ⟨[.resp 200 "https://maisonprotegee.orange.fr/home.do" ""],
          [.ok 302 ⟨"", []⟩, .ok 302 ⟨"", []⟩]⟩).trace.count .fetch = 2 ∧
      (async_get_status 0 ⟨true, none, none, []⟩
        ⟨[.resp 200 "https://maisonprotegee.orange.fr/home.do" ""],
          [.ok 302 ⟨"", []⟩, .ok 302 ⟨"", []⟩]⟩).env.fetches = []) ∧
    ((async_get_temperatures 0 ⟨true, none, none, []⟩
        ⟨[.resp 200 "https://maisonprotegee.orange.fr/home.do" ""],
          [.ok 302 ⟨"", []⟩, .ok 302 ⟨"", []⟩]⟩).res = .ok none ∧
      (async_get_temperatures 0 ⟨true, none, none, []⟩
        ⟨[.resp 200 "https://maisonprotegee.orange.fr/home.do" ""],
          [.ok 302 ⟨"", []⟩, .ok 302 ⟨"", []⟩]⟩).trace.count .fetch = 2 ∧
      (async_get_temperatures 0 ⟨true, none, none, []⟩
        ⟨[.resp 200 "https://maisonprotegee.orange.fr/home.do" ""],
          [.ok 302 ⟨"", []⟩, .ok 302 ⟨"", []⟩]⟩).env.fetches = []) ∧
    ((async_get_events 0 30 ⟨true, none, none, []⟩
        ⟨[.resp 200 "https://maisonprotegee.orange.fr/home.do" ""],
          [.ok 302 ⟨"", []⟩, .ok 302 ⟨"", []⟩]⟩).res = .ok none ∧
      (async_get_events 0 30 ⟨true, none, none, []⟩
        ⟨[.resp 200 "https://maisonprotegee.orange.fr/home.do" ""],
          [.ok 302 ⟨"", []⟩, .ok 302 ⟨"", []⟩]⟩).trace.count .fetch = 2 ∧
      (async_get_events 0 30 ⟨true, none, none, []⟩
        ⟨[.resp 200 "https://maisonprotegee.orange.fr/home.do" ""],
          [.ok 302 ⟨"", []⟩, .ok 302 ⟨"", []⟩]⟩).env.fetches = []) ∧
    ((async_set_status 0 "arm" ⟨true, none, none, []⟩
        ⟨[.resp 200 "https://maisonprotegee.orange.fr/home.do" ""],
          [.ok 302 ⟨"", []⟩, .ok 302 ⟨"", []⟩]⟩).res = .ok false ∧
      (async_set_status 0 "arm" ⟨true, none, none, []⟩
        ⟨[.resp 200 "https://maisonprotegee.orange.fr/home.do" ""],
          [.ok 302 ⟨"", []⟩, .ok 302 ⟨"", []⟩]⟩).trace.count .fetch = 2 ∧
      (async_set_status 0 "arm" ⟨true, none, none, []⟩
        ⟨[.resp 200 "https://maisonprotegee.orange.fr/home.do" ""],
          [.ok 302 ⟨"", []⟩, .ok 302 ⟨"", []⟩]⟩).env.fetches = []) :=
  claim1_second_302_bounds_retry 0 200 30
    "https://maisonprotegee.orange.fr/home.do" "" "arm" ⟨true, none, none, []⟩
    ⟨"", []⟩ ⟨"", []⟩ [] [] rfl rfl (by decide) (Or.inl rfl)

/-- Counterexample to C3: `async_set_status` receiving a 404 returns false
and drops the authenticated flag, but the cookie jar is NOT cleared — the
404 lands in the generic exception handler of `async_set_status`, which
never calls `_clear_session`, contradicting the claim that every resource
operation clears the cookie store on 404. -/
theorem claim3_counterexample_set_status_404_keeps_cookies :
    (async_set_status 0 "arm" ⟨true, none, none, ["session-cookie"]⟩
      ⟨[], [.ok 404 ⟨"", []⟩]⟩).res = .ok false ∧
    (async_set_status 0 "arm" ⟨true, none, none, ["session-cookie"]⟩
      ⟨[], [.ok 404 ⟨"", []⟩]⟩).state.authenticated = false ∧
    (async_set_status 0 "arm" ⟨true, none, none, ["session-cookie"]⟩
      ⟨[], [.ok 404 ⟨"", []⟩]⟩).state.cookieJar = ["session-cookie"] :=
  ⟨rfl, rfl, rfl⟩

/-- C3 (amended): a 404 on the initial fetch of the three read operations
clears the cookie jar, leaves `authenticated=false`, and returns no data
with no retry and no re-authentication (single fetch in the trace, login
script untouched); `async_set_status` on a 404 likewise returns false with
no retry and drops the authenticated flag, but leaves the cookie jar
unchanged. -/
theorem claim3_amended_404_handling (now days : Nat) (action : String)
    (s : ClientState) (body : Html)
    (ls : List LoginResult) (fs : List NetResult)
    (hs : s.authenticated = true)
    (haction : action = "arm" ∨ action = "disarm") :
    async_get_status now s ⟨ls, .ok 404 body :: fs⟩ =
      ⟨.ok none, _clear_session s, ⟨ls, fs⟩, [.fetch]⟩ ∧
    async_get_temperatures now s ⟨ls, .ok 404 body :: fs⟩ =
      ⟨.ok none, _clear_session s, ⟨ls, fs⟩, [.fetch]⟩ ∧
    async_get_events now days s ⟨ls, .ok 404 body :: fs⟩ =
      ⟨.ok none, _clear_session s, ⟨ls, fs⟩, [.fetch]⟩ ∧
    async_set_status now action s ⟨ls, .ok 404 body :: fs⟩ =
      ⟨.ok false, { s with authenticated := false }, ⟨ls, fs⟩, [.fetch]⟩ := by
  refine ⟨?_, ?_, ?_, ?_⟩
  · unfold async_get_status async_get_status_fetch
    simp only [hs, if_true]
    simp
  · unfold async_get_temperatures async_get_temperatures_fetch
    simp only [hs, if_true]
    simp
  · unfold async_get_events async_get_events_fetch
    simp only [hs, if_true]
    simp
  · rcases haction with h | h <;> subst h <;>
      (unfold async_set_status async_set_status_fetch
       simp only [hs, if_true]
       simp)

/-- Witness for C3 (amended) at concrete inputs. -/
theorem claim3_amended_404_handling_witness :
    async_get_status 0 ⟨true, none, none, ["c"]⟩ ⟨[], [.ok 404 ⟨"", []⟩]⟩ =
      ⟨.ok none, _clear_session ⟨true, none, none, ["c"]⟩, ⟨[], []⟩, [.fetch]⟩ ∧
    async_get_temperatures 0 ⟨true, none, none, ["c"]⟩ ⟨[], [.ok 404 ⟨"", []⟩]⟩ =
      ⟨.ok none, _clear_session ⟨true, none, none, ["c"]⟩, ⟨[], []⟩, [.fetch]⟩ ∧
    async_get_events 0 30 ⟨true, none, none, ["c"]⟩ ⟨[], [.ok 404 ⟨"", []⟩]⟩ =
      ⟨.ok none, _clear_session ⟨true, none, none, ["c"]⟩, ⟨[], []⟩, [.fetch]⟩ ∧
    async_set_status 0 "disarm" ⟨true, none, none, ["c"]⟩ ⟨[], [.ok 404 ⟨"", []⟩]⟩ =
      ⟨.ok false, { ClientState.mk true none none ["c"] with authenticated := false },
        ⟨[], []⟩, [.fetch]⟩ :=
  claim3_amended_404_handling 0 30 "disarm" ⟨true, none, none, ["c"]⟩ ⟨"", []⟩
    [] [] rfl (Or.inr rfl)

/-- Counterexample to C4: `async_get_events` receiving a 2xx response with a
non-empty body whose extraction yields no records returns the empty list
(not the no-data result) and leaves the session fully intact — the events
read has no empty-extraction check, contradicting the claim that every
read operation clears the session and returns no data in that case. -/
theorem claim4_counterexample_events_empty_parse :
    (async_get_events 0 30 ⟨true, none, none, ["c"]⟩
      ⟨[], [.ok 200 ⟨"x", []⟩]⟩).res = .ok (some []) ∧
    (async_get_events 0 30 ⟨true, none, none, ["c"]⟩
      ⟨[], [.ok 200 ⟨"x", []⟩]⟩).state = ⟨true, none, none, ["c"]⟩ :=
  ⟨rfl, rfl⟩

/-- C4 (amended): on the direct (non-retried) 2xx path with a non-empty
body, `async_get_status` and `async_get_temperatures` clear the session and
return no data when extraction yields no recognizable records; the events
read instead returns the (empty) parsed list and leaves the session
unchanged. -/
theorem claim4_amended_empty_extraction (now days : Nat) (s : ClientState)
    (b1 b2 b3 : Html) (ls : List LoginResult) (fs : List NetResult)
    (hs : s.authenticated = true)
    (hraw1 : strTrim b1.raw ≠ "")
    (hraw2 : strTrim b2.raw ≠ "")
    (hraw3 : strTrim b3.raw ≠ "")
    (hp1 : (_parse_status_html b1.dom).entities_alarm = none ∧
      (_parse_status_html b1.dom).sensors = [])
    (hp2 : _parse_temperatures_html b2.dom = [])
    (hp3 : _parse_events_html b3.dom = []) :
    async_get_status now s ⟨ls, .ok 200 b1 :: fs⟩ =
      ⟨.ok none, _clear_session s, ⟨ls, fs⟩, [.fetch]⟩ ∧
    async_get_temperatures now s ⟨ls, .ok 200 b2 :: fs⟩ =
      ⟨.ok none, _clear_session s, ⟨ls, fs⟩, [.fetch]⟩ ∧
    async_get_events now days s ⟨ls, .ok 200 b3 :: fs⟩ =
      ⟨.ok (some []), s, ⟨ls, fs⟩, [.fetch]⟩ := by
  refine ⟨?_, ?_, ?_⟩
  · unfold async_get_status async_get_status_fetch
    simp only [hs, if_true]
    simp [hraw1, hp1.1, hp1.2]
  · unfold async_get_temperatures async_get_temperatures_fetch
    simp only [hs, if_true]
    simp [hraw2, hp2]
  · unfold async_get_events async_get_events_fetch
    simp only [hs, if_true]
    simp [hraw3, hp3]

/-- Witness for C4 (amended): 200 responses with the body "x", whose DOM is
empty, so every extractor yields no records. -/
theorem claim4_amended_empty_extraction_witness :
    async_get_status 0 ⟨true, none, none, ["c"]⟩ ⟨[], [.ok 200 ⟨"x", []⟩]⟩ =
      ⟨.ok none, _clear_session ⟨true, none, none, ["c"]⟩, ⟨[], []⟩, [.fetch]⟩ ∧
    async_get_temperatures 0 ⟨true, none, none, ["c"]⟩ ⟨[], [.ok 200 ⟨"x", []⟩]⟩ =
      ⟨.ok none, _clear_session ⟨true, none, none, ["c"]⟩, ⟨[], []⟩, [.fetch]⟩ ∧
    async_get_events 0 30 ⟨true, none, none, ["c"]⟩ ⟨[], [.ok 200 ⟨"x", []⟩]⟩ =
      ⟨.ok (some []), ⟨true, none, none, ["c"]⟩, ⟨[], []⟩, [.fetch]⟩ :=
  claim4_amended_empty_extraction 0 30 ⟨true, none, none, ["c"]⟩
    ⟨"x", []⟩ ⟨"x", []⟩ ⟨"x", []⟩ [] [] rfl
    (by decide) (by decide) (by decide) ⟨rfl, rfl⟩ rfl rfl

/-- C7: the extractors are total functions of the markup (they are plain
Lean functions here, with the fallible sub-steps — `float`, `strptime` —
modelled as `Option` and handled exactly where the source catches
`ValueError`), and when the expected structure is absent each returns the
empty record rather than failing: the status extractor with no highlighted
span, no control icon, and no status rows returns the empty status record,
and the temperature and events extractors with no matching table return an
empty dict / list. -/
theorem claim7_extractors_total_empty_on_missing (doc : List Node) :
    ((findNodes "span" (hasClass "highlighted") doc = none ∧
      findNodes "i" (anyClassContains "icon-control") doc = none ∧
      findAllNodes "div" (classAttrIs "row status") doc = []) →
        _parse_status_html doc = ⟨none, none, []⟩) ∧
    (findNodes "table" (anyClassContains "table") doc = none →
      _parse_temperatures_html doc = []) ∧
    (findNodes "table" (hasClass "table") doc = none →
      _parse_events_html doc = []) := by
  refine ⟨?_, ?_, ?_⟩
  · rintro ⟨h1, h2, h3⟩
    unfold _parse_status_html
    rw [h1, h2, h3]
    rfl
  · intro h
    unfold _parse_temperatures_html
    rw [h]
  · intro h
    unfold _parse_events_html
    rw [h]

/-- Witness for C7 at the empty document. -/
theorem claim7_extractors_total_empty_on_missing_witness :
    _parse_status_html [] = ⟨none, none, []⟩ ∧
    _parse_temperatures_html [] = [] ∧
    _parse_events_html [] = [] :=
  ⟨(claim7_extractors_total_empty_on_missing []).1 ⟨rfl, rfl, rfl⟩,
   (claim7_extractors_total_empty_on_missing []).2.1 rfl,
   (claim7_extractors_total_empty_on_missing []).2.2 rfl⟩

/-- A row without the span/icon pair leaves the status data unchanged. -/
theorem statusRowUpdate_no_signal (acc : StatusData) (row : Node)
    (h : rowHasSignal row = false) : statusRowUpdate acc row = acc := by
  unfold rowHasSignal at h
  unfold statusRowUpdate
  rcases hsp : findNodes "span" (hasClass "highlighted") (childrenOf row) with _ | sp
  · rfl
  · rcases hic : findNodes "i" (anyClassContains "icon-control") (childrenOf row) with _ | ic
    · rfl
    · rw [hsp, hic] at h
      simp at h

/-- A fold over rows none of which carries a signal changes nothing. -/
theorem foldl_statusRowUpdate_no_signal (l : List Node) (acc : StatusData)
    (h : ∀ r ∈ l, rowHasSignal r = false) :
    l.foldl statusRowUpdate acc = acc := by
  induction l generalizing acc with
  | nil => rfl
  | cons x xs ih =>
    rw [List.foldl_cons, statusRowUpdate_no_signal acc x (h x (by simp))]
    exact ih acc (fun r hr => h r (by simp [hr]))

/-- Counterexample to C8: markup with both signals — a highlighted
"Alarme désactivée" label and an arm control icon — for which the parsed
armed state is false, not true: both sit inside a `row status` block, and
the tier-three row scan overwrites the icon-based reading with the
label-derived state, so the icon does not always determine the result. -/
theorem claim8_counterexample_status_row_overrides_icon :
    (findNodes "span" (hasClass "highlighted")
      [Node.elem "div" ["row", "status"]
        [Node.elem "span" ["highlighted"] [Node.text "Alarme désactivée"],
         Node.elem "i" ["icon-control-arm"] []]]).isSome = true ∧
    findNodes "i" (anyClassContains "icon-control")
      [Node.elem "div" ["row", "status"]
        [Node.elem "span" ["highlighted"] [Node.text "Alarme désactivée"],
         Node.elem "i" ["icon-control-arm"] []]] =
      some (Node.elem "i" ["icon-control-arm"] []) ∧
    (_parse_status_html
      [Node.elem "div" ["row", "status"]
        [Node.elem "span" ["highlighted"] [Node.text "Alarme désactivée"],
         Node.elem "i" ["icon-control-arm"] []]]).entities_alarm =
      some ⟨"Alarme", false, "Alarme désactivée"⟩ :=
  ⟨rfl, rfl, rfl⟩

/-- C8 (amended): when the markup holds a highlighted label and a control
icon with the arm class, and no `row status` block carries both signals,
the icon-based reading determines the armed state: the parsed alarm entity
is armed regardless of the label text (arm icon + "désactivée" label still
yields armed=true). -/
theorem claim8_amended_icon_overrides_label (doc : List Node) (sp el : Node)
    (hspan : findNodes "span" (hasClass "highlighted") doc = some sp)
    (hicon : findNodes "i" (anyClassContains "icon-control") doc = some el)
    (harm : (classesOf el).contains "icon-control-arm" = true)
    (hrows : ∀ r ∈ findAllNodes "div" (classAttrIs "row status") doc,
      rowHasSignal r = false) :
    (_parse_status_html doc).entities_alarm =
      some ⟨"Alarme", true, "Alarme activée"⟩ := by
  unfold _parse_status_html
  rw [hspan, hicon,
    foldl_statusRowUpdate_no_signal (findAllNodes "div" (classAttrIs "row status") doc)
      _ hrows]
  have hmem : "icon-control-arm" ∈ classesOf el := by
    simpa using harm
  simp [hmem]

/-- Witness for C8 (amended): a deactivated label next to an arm icon, with
no status-row block, parses as armed. -/
theorem claim8_amended_icon_overrides_label_witness :
    (_parse_status_html
      [Node.elem "span" ["highlighted"] [Node.text "Alarme désactivée"],
       Node.elem "i" ["icon-control-arm"] []]).entities_alarm =
      some ⟨"Alarme", true, "Alarme activée"⟩ :=
  claim8_amended_icon_overrides_label
    [Node.elem "span" ["highlighted"] [Node.text "Alarme désactivée"],
     Node.elem "i" ["icon-control-arm"] []]
    (Node.elem "span" ["highlighted"] [Node.text "Alarme désactivée"])
    (Node.elem "i" ["icon-control-arm"] [])
    rfl rfl rfl (by intro r hr; simp [findAllNodes, findAllNode] at hr)

/-- The per-row step emits exactly one record for each row passing the
three-cell guard and skips every other row. -/
theorem eventOfRow_eq (row : Node) :
    eventOfRow row =
      if rowHasThreeCells row then some (rowEvent row) else none := by
  unfold eventOfRow rowEvent rowHasThreeCells
  rcases h : findAllNodes "td" anyClass (childrenOf row) with
    _ | ⟨c0, _ | ⟨c1, _ | ⟨c2, rest⟩⟩⟩ <;> simp [h]

/-- A `filterMap` whose function is a guarded `some` is the map of the
guard-passing sublist, in order. -/
theorem filterMap_eq_map_filter {α β : Type} (f : α → Option β) (p : α → Bool)
    (g : α → β) (h : ∀ a, f a = if p a then some (g a) else none) :
    ∀ l : List α, l.filterMap f = (l.filter p).map g := by
  intro l
  induction l with
  | nil => rfl
  | cons x xs ih =>
    rw [List.filterMap_cons, List.filter_cons, h x]
    by_cases hp : p x = true
    · simp only [hp, if_true, List.map_cons, ih]
    · rw [Bool.not_eq_true] at hp
      simp only [hp, Bool.false_eq_true, if_false, ih]

/-- C9: the events extractor emits exactly one record per table row with at
least three cells, in the order the rows appear (a filter of the row list
followed by a map, never a reorder); and a row whose date text fails to
parse still yields a record, with `date = none` and the raw date text
preserved. -/
theorem claim9_events_order_and_unparsed_dates (doc : List Node) (tbl tb : Node)
    (h1 : findNodes "table" (hasClass "table") doc = some tbl)
    (h2 : findNodes "tbody" anyClass (childrenOf tbl) = some tb) :
    _parse_events_html doc =
      ((findAllNodes "tr" anyClass (childrenOf tb)).filter rowHasThreeCells).map
        rowEvent ∧
    ∀ c0 c1 c2 : Node, eventDateParse (getTextStrip c1) = none →
      (eventOfCells c0 c1 c2).date = none ∧
      (eventOfCells c0 c1 c2).date_text = getTextStrip c1 := by
  constructor
  · unfold _parse_events_html
    simp only [h1, h2]
    exact filterMap_eq_map_filter eventOfRow rowHasThreeCells rowEvent eventOfRow_eq _
  · intro c0 c1 c2 hd
    refine ⟨?_, ?_⟩ <;> simp [eventOfCells, hd]

/-- Witness for C9: a log table with one three-cell row whose date text is
well-formed but names a day that does not exist (31 February), so the parse
fails as it does in CPython, and one two-cell row; the extractor emits
exactly the record of the first row, with `date = none` and the raw text
kept. -/
theorem claim9_events_order_and_unparsed_dates_witness :
    _parse_events_html
      [Node.elem "table" ["table"]
        [Node.elem "tbody" []
          [Node.elem "tr" []
            [Node.elem "td" [] [Node.elem "i" ["icon-control-arm"] []],
             Node.elem "td" [] [Node.text "31/02/2024 à 10h00"],
             Node.elem "td" [] [Node.text "Alarme activée"]],
           Node.elem "tr" []
            [Node.elem "td" [] [], Node.elem "td" [] []]]]] =
      ((findAllNodes "tr" anyClass
        (childrenOf (Node.elem "tbody" []
          [Node.elem "tr" []
            [Node.elem "td" [] [Node.elem "i" ["icon-control-arm"] []],
             Node.elem "td" [] [Node.text "31/02/2024 à 10h00"],
             Node.elem "td" [] [Node.text "Alarme activée"]],
           Node.elem "tr" []
            [Node.elem "td" [] [], Node.elem "td" [] []]]))).filter
          rowHasThreeCells).map rowEvent ∧
    ((eventOfCells (Node.elem "td" [] [Node.elem "i" ["icon-control-arm"] []])
        (Node.elem "td" [] [Node.text "31/02/2024 à 10h00"])
        (Node.elem "td" [] [Node.text "Alarme activée"])).date = none ∧
      (eventOfCells (Node.elem "td" [] [Node.elem "i" ["icon-control-arm"] []])
        (Node.elem "td" [] [Node.text "31/02/2024 à 10h00"])
        (Node.elem "td" [] [Node.text "Alarme activée"])).date_text =
        getTextStrip (Node.elem "td" [] [Node.text "31/02/2024 à 10h00"])) :=
  ⟨(claim9_events_order_and_unparsed_dates
      [Node.elem "table" ["table"]
        [Node.elem "tbody" []
          [Node.elem "tr" []
            [Node.elem "td" [] [Node.elem "i" ["icon-control-arm"] []],
             Node.elem "td" [] [Node.text "31/02/2024 à 10h00"],
             Node.elem "td" [] [Node.text "Alarme activée"]],
           Node.elem "tr" []
            [Node.elem "td" [] [], Node.elem "td" [] []]]]]
      (Node.elem "table" ["table"]
        [Node.elem "tbody" []
          [Node.elem "tr" []
            [Node.elem "td" [] [Node.elem "i" ["icon-control-arm"] []],
             Node.elem "td" [] [Node.text "31/02/2024 à 10h00"],
             Node.elem "td" [] [Node.text "Alarme activée"]],
           Node.elem "tr" []
            [Node.elem "td" [] [], Node.elem "td" [] []]]])
      (Node.elem "tbody" []
        [Node.elem "tr" []
          [Node.elem "td" [] [Node.elem "i" ["icon-control-arm"] []],
           Node.elem "td" [] [Node.text "31/02/2024 à 10h00"],
           Node.elem "td" [] [Node.text "Alarme activée"]],
         Node.elem "tr" []
          [Node.elem "td" [] [], Node.elem "td" [] []]])
      rfl rfl).1,
   (claim9_events_order_and_unparsed_dates
      [Node.elem "table" ["table"]
        [Node.elem "tbody" []
          [Node.elem "tr" []
            [Node.elem "td" [] [Node.elem "i" ["icon-control-arm"] []],
             Node.elem "td" [] [Node.text "31/02/2024 à 10h00"],
             Node.elem "td" [] [Node.text "Alarme activée"]],
           Node.elem "tr" []
            [Node.elem "td" [] [], Node.elem "td" [] []]]]]
      (Node.elem "table" ["table"]
        [Node.elem "tbody" []
          [Node.elem "tr" []
            [Node.elem "td" [] [Node.elem "i" ["icon-control-arm"] []],
             Node.elem "td" [] [Node.text "31/02/2024 à 10h00"],
             Node.elem "td" [] [Node.text "Alarme activée"]],
           Node.elem "tr" []
            [Node.elem "td" [] [], Node.elem "td" [] []]]])
      (Node.elem "tbody" []
        [Node.elem "tr" []
          [Node.elem "td" [] [Node.elem "i" ["icon-control-arm"] []],
           Node.elem "td" [] [Node.text "31/02/2024 à 10h00"],
           Node.elem "td" [] [Node.text "Alarme activée"]],
         Node.elem "tr" []
          [Node.elem "td" [] [], Node.elem "td" [] []]])
      rfl rfl).2
     (Node.elem "td" [] [Node.elem "i" ["icon-control-arm"] []])
     (Node.elem "td" [] [Node.text "31/02/2024 à 10h00"])
     (Node.elem "td" [] [Node.text "Alarme activée"]) rfl⟩
